import Mathlib

/-!
Shallow embedding of the transaction classification and aggregation core of
the MyFinances repository: the internal-transfer pair matcher, the explicit
transfer-pattern test, the transaction type classifier, the manual-override
resolution, and the actual-spending/income/net-flow/count aggregations
(from src/utils/transactionFilters.js and the transaction tagging module).

Conventions of the embedding:
- JS strings are Lean `String`; optional fields are `Option String`.
- `x?.toLowerCase() || ""` becomes `lowerOpt`; with `.trim()` it becomes
  `lowerTrimOpt`.
- `Timestamp` holds the parsed value of `new Date(t.Timestamp)`:
  `some ms` for a valid instant, `none` for an unparseable date (NaN).
- `Amount` is `some n` when `typeof t.Amount === "number"`, else `none`;
  JS `Math.abs(undefined)` is NaN and `NaN !== NaN`, so a missing amount
  makes the equal-amount test fail, which the embedding mirrors.
- A JS `Set` of transaction ids is a `List (Option String)` queried by
  `idMem` (membership is all the code observes of the set).
- The input of the aggregation functions is `Option (List Txn)`: `none`
  models an argument that is not an array (the `!transactions ||
  !Array.isArray(transactions)` guard).
- The localStorage map `customTransactionTags` is passed explicitly as an
  association list `List (String × Ctags)`.
- `Array.prototype.sort` with the timestamp comparator is modelled by a
  stable insertion sort; for valid timestamps the comparator is consistent
  and every stable sort agrees, and a NaN comparator value is treated as 0
  (no swap), as the spec of `sort` prescribes for such comparators.
-/

namespace MyFinances

/-- Lowercasing as in `String.prototype.toLowerCase` (ASCII range). -/
def jsLower (s : String) : String :=
  ⟨s.data.map Char.toLower⟩

/-- Uppercasing as in `String.prototype.toUpperCase` (ASCII range). -/
def jsUpper (s : String) : String :=
  ⟨s.data.map Char.toUpper⟩

/-- Whitespace trimming as in `String.prototype.trim`. -/
def jsTrim (s : String) : String :=
  ⟨((s.data.dropWhile Char.isWhitespace).reverse.dropWhile Char.isWhitespace).reverse⟩

/-- Does the second character list start with the first? -/
def hasPrefixChars : List Char → List Char → Bool
  | [], _ => true
  | _ :: _, [] => false
  | a :: as, b :: bs => a == b && hasPrefixChars as bs

/-- Does the second character list contain the first as a contiguous run? -/
def includesChars (needle : List Char) : List Char → Bool
  | [] => needle.isEmpty
  | h :: rest => hasPrefixChars needle (h :: rest) || includesChars needle rest

/-- `hay.includes(needle)` on strings. -/
def strIncludes (hay needle : String) : Bool :=
  includesChars needle.data hay.data

/-- `x?.toLowerCase() || ""` on an optional string field. -/
def lowerOpt : Option String → String
  | some s => jsLower s
  | none => ""

/-- `x?.toLowerCase()?.trim() || ""` on an optional string field. -/
def lowerTrimOpt : Option String → String
  | some s => jsTrim (jsLower s)
  | none => ""

/-- A custom-tag object as stored by `updateTransactionType` / the API:
a partial record whose present keys override the automatic tags. -/
structure Ctags where
  type : Option String := none
  method : Option String := none
deriving DecidableEq

/-- A transaction record as consumed by the classification core. -/
structure Txn where
  Transaction_ID : Option String := none
  Timestamp : Option Int := none
  Bank : Option String := none
  Amount : Option Int := none
  Debit_Credit : Option String := none
  Recipient_Merchant : Option String := none
  Transaction_Method : Option String := none
  Raw_Message : Option String := none
  Category : Option String := none
  CustomTags : Option Ctags := none
deriving DecidableEq

/-- Membership in the set of collected transfer ids (`Set.prototype.has`). -/
def idMem (acc : List (Option String)) (i : Option String) : Bool :=
  acc.any (fun j => j == i)

/-- Truthiness of a transaction id (`undefined` and `""` are falsy). -/
def idTruthy : Option String → Bool
  | some s => !(s == "")
  | none => false

/-- The fixed list of the user's own banks in `isPotentialTransferPair`. -/
def userBanks : List String :=
  ["axis bank", "hdfc bank", "hsbc", "icici bank", "idfc first bank"]

/-- Raw-message transfer indicator substrings in `isPotentialTransferPair`. -/
def transferIndicators : List String :=
  ["transfer", "credited", "debited", "account", "balance"]

/-- Generic transfer merchant substrings in `isPotentialTransferPair`. -/
def genericTransferMerchants : List String :=
  ["credit", "debit", "transfer", "mubarak m"]

/-- `isPotentialTransferPair(tx1, tx2)` from transactionFilters.js. -/
def isPotentialTransferPair (tx1 tx2 : Txn) : Bool :=
  if tx1.Debit_Credit == tx2.Debit_Credit then false
  else
    match tx1.Amount, tx2.Amount with
    | some a1, some a2 =>
      if a1.natAbs != a2.natAbs then false
      else if idTruthy tx1.Transaction_ID && idTruthy tx2.Transaction_ID
           && tx1.Transaction_ID == tx2.Transaction_ID then true
      else if userBanks.contains (lowerTrimOpt tx1.Bank)
           && userBanks.contains (lowerTrimOpt tx2.Bank) then true
      else if transferIndicators.any (fun w => strIncludes (lowerOpt tx1.Raw_Message) w)
           && transferIndicators.any (fun w => strIncludes (lowerOpt tx2.Raw_Message) w) then true
      else if genericTransferMerchants.any (fun p => strIncludes (lowerOpt tx1.Recipient_Merchant) p)
           || genericTransferMerchants.any (fun p => strIncludes (lowerOpt tx2.Recipient_Merchant) p) then true
      else false
    | _, _ => false

/-- The comparator `new Date(a.Timestamp) - new Date(b.Timestamp)` viewed
as a not-greater test: a NaN difference is treated as 0 (no swap). -/
def tsLeB (a b : Txn) : Bool :=
  match a.Timestamp, b.Timestamp with
  | some x, some y => decide (x ≤ y)
  | _, _ => true

instance tsLeDecidable : DecidableRel (fun a b : Txn => tsLeB a b = true) :=
  fun _ _ => instDecidableEqBool _ _

/-- The stable sort by timestamp at the head of `findInternalTransferPairs`. -/
def sortTs (l : List Txn) : List Txn :=
  List.insertionSort (fun a b : Txn => tsLeB a b = true) l

/-- `pairTime - transactionTime > timeWindowMs` (false when either date is
invalid, since NaN comparisons are false). -/
def beyondWindow (base cand : Txn) : Bool :=
  match cand.Timestamp, base.Timestamp with
  | some p, some q => decide (p - q > 10 * 60 * 1000)
  | _, _ => false

/-- The inner loop of `findInternalTransferPairs`: scan forward from the
current transaction for the first unconsumed candidate inside the window
that passes the pairing heuristic; `break` on leaving the window. -/
def scanForPair (t : Txn) (acc : List (Option String)) : List Txn → Option Txn
  | [] => none
  | c :: rest =>
    if beyondWindow t c then none
    else if idMem acc c.Transaction_ID then scanForPair t acc rest
    else if isPotentialTransferPair t c then some c
    else scanForPair t acc rest

/-- The outer loop of `findInternalTransferPairs` over the sorted list,
accumulating the set of paired transaction ids. -/
def pairLoop : List Txn → List (Option String) → List (Option String)
  | [], acc => acc
  | t :: rest, acc =>
    if idMem acc t.Transaction_ID then pairLoop rest acc
    else
      match scanForPair t acc rest with
      | some c => pairLoop rest (acc ++ [t.Transaction_ID, c.Transaction_ID])
      | none => pairLoop rest acc

/-- `findInternalTransferPairs(transactions)` from transactionFilters.js. -/
def findInternalTransferPairs (transactions : List Txn) : List (Option String) :=
  pairLoop (sortTs transactions) []

/-- Explicit transfer phrases checked when the merchant is exactly "debit". -/
def internalTransferWords : List String :=
  ["credited to", "debited from", "transfer to", "transfer from"]

/-- Merchant substrings that mark a credit-card payment or auto transfer. -/
def transferPatterns : List String :=
  ["credit card payment", "cc payment", "card payment", "payment to credit card",
   "credit card bill", "cc payment to xx", "auto transfer", "scheduled transfer"]

/-- Raw-message credit-card payment indicator phrases. -/
def creditCardIndicators : List String :=
  ["credit card", "card ending with", "available limit",
   "payment received towards your credit card", "payment of rs", "cardmember"]

/-- Category labels that indicate an internal transfer. -/
def transferCategories : List String :=
  ["credit card payment", "loan payment", "investment transfer"]

/-- `hasExplicitTransferPattern(transaction)` from transactionFilters.js. -/
def hasExplicitTransferPattern (t : Txn) : Bool :=
  let merchant := lowerTrimOpt t.Recipient_Merchant
  let category := lowerOpt t.Category
  if merchant == "debit" then
    let rawMessage := lowerOpt t.Raw_Message
    internalTransferWords.any (fun w => strIncludes rawMessage w)
  else
    let method := lowerOpt t.Transaction_Method
    let rawMessage := lowerOpt t.Raw_Message
    if method == "credit card" then true
    else if creditCardIndicators.any (fun w => strIncludes rawMessage w) then true
    else if merchant == "payment received" && method == "credit card" then true
    else
      transferPatterns.any (fun p => strIncludes merchant p)
      || transferCategories.any (fun c => strIncludes category c)

/-- `isInternalTransfer(transaction, allTransactions)`. -/
def isInternalTransfer (t : Txn) (allTransactions : List Txn) : Bool :=
  let transferPairs := findInternalTransferPairs allTransactions
  let isInPair := idMem transferPairs t.Transaction_ID
  if t.Debit_Credit == some "Debit" then isInPair
  else isInPair || hasExplicitTransferPattern t

/-- Bill-payment keyword list from the tagging module. -/
def billPatterns : List String :=
  ["electricity", "gas", "water", "internet", "mobile", "phone",
   "insurance", "premium", "utility", "bill", "recharge",
   "reliance jio", "airtel", "vodafone", "bsnl",
   "electricity board", "bescom", "kseb", "mseb",
   "credit card payment", "loan payment", "emi payment",
   "cc payment", "card payment"]

/-- `isBillPayment(transaction)` from the tagging module. -/
def isBillPayment (t : Txn) : Bool :=
  let merchant := lowerOpt t.Recipient_Merchant
  let rawMessage := lowerOpt t.Raw_Message
  billPatterns.any (fun p => strIncludes merchant p || strIncludes rawMessage p)

/-- `getTransactionType(transaction, allTransactions)`. -/
def getTransactionType (t : Txn) (allTransactions : List Txn) : String :=
  if isInternalTransfer t allTransactions then "internal"
  else if isBillPayment t then "bill-payment"
  else if t.Debit_Credit == some "Credit" then "income"
  else if t.Debit_Credit == some "Debit" then "spending"
  else "unknown"

/-- The method display-name map in `getPaymentMethod`. -/
def methodMap : List (String × String) :=
  [("upi", "UPI"), ("credit card", "Card"), ("account", "Account"),
   ("neft", "NEFT"), ("rtgs", "RTGS"), ("imps", "IMPS"),
   ("atm", "ATM"), ("interest", "Interest")]

/-- `getPaymentMethod(transaction)`. -/
def getPaymentMethod (t : Txn) : String :=
  let method := lowerOpt t.Transaction_Method
  match methodMap.lookup method with
  | some v => v
  | none => if jsUpper method == "" then "Other" else jsUpper method

/-- The automatic tag triple produced by `getTransactionTags`. -/
structure Tags where
  type : String
  method : String
  bank : Option String
deriving DecidableEq

/-- `getTransactionTags(transaction, allTransactions)`. -/
def getTransactionTags (t : Txn) (allTransactions : List Txn) : Tags :=
  { type := getTransactionType t allTransactions,
    method := getPaymentMethod t,
    bank := t.Bank }

/-- `getCustomTags(transactionId)` with the default empty `apiTags`: the
localStorage entry for the id, or the empty object. -/
def getCustomTags (localTags : List (String × Ctags)) : Option String → Ctags
  | some i => (localTags.lookup i).getD {}
  | none => {}

/-- `getFinalTags(transaction, allTransactions)`: spread of the custom tags
over the automatic tags, the custom source being `transaction.CustomTags`
when present (a truthy object), else the localStorage entry. -/
def getFinalTags (localTags : List (String × Ctags)) (t : Txn)
    (allTransactions : List Txn) : Tags :=
  let autoTags := getTransactionTags t allTransactions
  let customTags :=
    match t.CustomTags with
    | some c => c
    | none => getCustomTags localTags t.Transaction_ID
  { type := customTags.type.getD autoTags.type,
    method := customTags.method.getD autoTags.method,
    bank := autoTags.bank }

/-- The per-transaction exclusion test of `getActualTransactions`:
manually tagged internal (API or localStorage), else automatic detection. -/
def keepActual (localTags : List (String × Ctags)) (l : List Txn) (t : Txn) : Bool :=
  let userTaggedAsInternal :=
    match t.CustomTags with
    | some c => c.type == some "internal"
    | none => false
  let localTaggedAsInternal :=
    match t.Transaction_ID with
    | some i =>
      match localTags.lookup i with
      | some c => c.type == some "internal"
      | none => false
    | none => false
  if userTaggedAsInternal || localTaggedAsInternal then false
  else !(isInternalTransfer t l)

/-- `getActualTransactions(transactions)`; `none` models an argument that
is not an array (the `!transactions || !Array.isArray` guard). -/
def getActualTransactions (localTags : List (String × Ctags)) :
    Option (List Txn) → List Txn
  | none => []
  | some l => l.filter (fun t => keepActual localTags l t)

/-- `getActualSpending(transactions)`. -/
def getActualSpending (localTags : List (String × Ctags)) :
    Option (List Txn) → Int
  | none => 0
  | some l =>
    ((getActualTransactions localTags (some l)).filter
      (fun t => t.Debit_Credit == some "Debit" && t.Amount.isSome)).foldl
        (fun sum t => sum + t.Amount.getD 0) 0

/-- `getActualIncome(transactions)`. -/
def getActualIncome (localTags : List (String × Ctags)) :
    Option (List Txn) → Int
  | none => 0
  | some l =>
    ((getActualTransactions localTags (some l)).filter
      (fun t => t.Debit_Credit == some "Credit" && t.Amount.isSome)).foldl
        (fun sum t => sum + t.Amount.getD 0) 0

/-- `getActualNetFlow(transactions)`. -/
def getActualNetFlow (localTags : List (String × Ctags)) :
    Option (List Txn) → Int
  | none => 0
  | some l => getActualIncome localTags (some l) - getActualSpending localTags (some l)

/-- `getActualTransactionCount(transactions)`. -/
def getActualTransactionCount (localTags : List (String × Ctags)) :
    Option (List Txn) → Nat
  | none => 0
  | some l => (getActualTransactions localTags (some l)).length

/-- The numeric timestamp a transaction sorts by (0 for an invalid date;
only used under a validity hypothesis). -/
def tsKey (t : Txn) : Int := t.Timestamp.getD 0

/-- A transaction that contributes to `totalSpend` or `totalIncome`:
a Debit or Credit with a numeric amount. -/
def contributesToTotals (t : Txn) : Bool :=
  (t.Debit_Credit == some "Debit" || t.Debit_Credit == some "Credit") && t.Amount.isSome

/-! Concrete transactions used as witnesses and counterexamples. -/

/-- A Credit whose merchant is a credit-card payment but with no pair match. -/
def txC1 : Txn :=
  { Transaction_ID := some "W1", Debit_Credit := some "Credit",
    Recipient_Merchant := some "Credit Card Payment", Amount := some 100,
    Timestamp := some 0 }

/-- Debit side of a pair exactly ten minutes before its credit side. -/
def txC2a : Txn :=
  { Transaction_ID := some "W2a", Debit_Credit := some "Debit", Amount := some 500,
    Bank := some "HDFC Bank", Timestamp := some 0 }

/-- Credit side of a pair exactly ten minutes after its debit side. -/
def txC2b : Txn :=
  { Transaction_ID := some "W2b", Debit_Credit := some "Credit", Amount := some 500,
    Bank := some "HDFC Bank", Timestamp := some 600000 }

/-- Merchant exactly "Debit" and method "credit card", empty raw message. -/
def txC3x : Txn :=
  { Transaction_ID := some "X3", Debit_Credit := some "Credit",
    Recipient_Merchant := some "Debit", Transaction_Method := some "credit card" }

/-- Merchant exactly "debit" with an explicit transfer phrase in the message. -/
def txC3w : Txn :=
  { Transaction_ID := some "W3", Debit_Credit := some "Credit",
    Recipient_Merchant := some "debit",
    Raw_Message := some "transfer to savings account" }

/-- A plain debit purchase with no transfer or bill signals. -/
def txC4 : Txn :=
  { Transaction_ID := some "W4", Debit_Credit := some "Debit", Amount := some 100,
    Recipient_Merchant := some "netflix", Timestamp := some 0 }

/-- A debit carrying a manual type override to "income". -/
def txC5 : Txn :=
  { Transaction_ID := some "W5", Debit_Credit := some "Debit", Amount := some 100,
    CustomTags := some { type := some "income" } }

/-- A debit whose timestamp does not parse. -/
def txC7n : Txn :=
  { Transaction_ID := some "N7", Debit_Credit := some "Debit", Amount := some 500,
    Bank := some "HDFC Bank", Timestamp := none }

/-- A valid credit matching `txC7n` by amount and bank. -/
def txC7v : Txn :=
  { Transaction_ID := some "V7", Debit_Credit := some "Credit", Amount := some 500,
    Bank := some "HDFC Bank", Timestamp := some 0 }

/-- A debit with two equally good credit partners at the same instant. -/
def txC9A : Txn :=
  { Transaction_ID := some "A9", Debit_Credit := some "Debit", Amount := some 500,
    Bank := some "HDFC Bank", Timestamp := some 0 }

/-- First credit partner candidate for `txC9A`. -/
def txC9B : Txn :=
  { Transaction_ID := some "B9", Debit_Credit := some "Credit", Amount := some 500,
    Bank := some "HDFC Bank", Timestamp := some 0 }

/-- Second credit partner candidate for `txC9A`. -/
def txC9C : Txn :=
  { Transaction_ID := some "C9", Debit_Credit := some "Credit", Amount := some 500,
    Bank := some "HDFC Bank", Timestamp := some 0 }

/-- A debit with a timestamp distinct from its partner. -/
def txC9p : Txn :=
  { Transaction_ID := some "P9", Debit_Credit := some "Debit", Amount := some 500,
    Bank := some "HDFC Bank", Timestamp := some 0 }

/-- A credit one second after `txC9p`. -/
def txC9q : Txn :=
  { Transaction_ID := some "Q9", Debit_Credit := some "Credit", Amount := some 500,
    Bank := some "HDFC Bank", Timestamp := some 1000 }

/-- An actual (non-internal) debit whose amount is missing. -/
def txC10 : Txn :=
  { Transaction_ID := some "M", Debit_Credit := some "Debit", Timestamp := some 0,
    Recipient_Merchant := some "netflix" }

/-! Helper lemmas. -/

theorem tsLeB_valid {a b : Txn} (ha : a.Timestamp.isSome = true)
    (hb : b.Timestamp.isSome = true) :
    tsLeB a b = true ↔ tsKey a ≤ tsKey b := by
  cases h1 : a.Timestamp <;> cases h2 : b.Timestamp <;> simp_all [tsLeB, tsKey]

theorem pairwise_le_orderedInsert (a : Txn) (l : List Txn)
    (ha : a.Timestamp.isSome = true) (hl : ∀ t ∈ l, t.Timestamp.isSome = true)
    (hp : l.Pairwise (fun x y => tsKey x ≤ tsKey y)) :
    (List.orderedInsert (fun x y : Txn => tsLeB x y = true) a l).Pairwise
      (fun x y => tsKey x ≤ tsKey y) := by
  induction l with
  | nil => simp [List.orderedInsert]
  | cons b bs ih =>
    have hb : b.Timestamp.isSome = true := hl b (by simp)
    have hbs : ∀ t ∈ bs, t.Timestamp.isSome = true := fun t htm => hl t (by simp [htm])
    rw [List.orderedInsert]
    split_ifs with hr
    · have hab : tsKey a ≤ tsKey b := (tsLeB_valid ha hb).mp hr
      refine List.Pairwise.cons ?_ hp
      intro x hx
      rcases List.mem_cons.mp hx with rfl | hx2
      · exact hab
      · exact le_trans hab (List.rel_of_pairwise_cons hp hx2)
    · have hba : tsKey b ≤ tsKey a := by
        have hnot : ¬ (tsKey a ≤ tsKey b) := fun hle => hr ((tsLeB_valid ha hb).mpr hle)
        omega
      refine List.Pairwise.cons ?_ (ih hbs hp.of_cons)
      intro x hx
      rcases (List.mem_orderedInsert _).mp hx with rfl | hx2
      · exact hba
      · exact List.rel_of_pairwise_cons hp hx2

theorem pairwise_le_sortTs (l : List Txn) (hv : ∀ t ∈ l, t.Timestamp.isSome = true) :
    (sortTs l).Pairwise (fun x y => tsKey x ≤ tsKey y) := by
  induction l with
  | nil => simp [sortTs, List.insertionSort]
  | cons a as ih =>
    have has : ∀ t ∈ as, t.Timestamp.isSome = true := fun t htm => hv t (by simp [htm])
    rw [sortTs, List.insertionSort]
    exact pairwise_le_orderedInsert a _ (hv a (by simp))
      (fun t htm => has t ((List.mem_insertionSort _).mp htm)) (ih has)

theorem pairwiseCombine {R S T : Txn → Txn → Prop}
    (hRS : ∀ a b, R a b → S a b → T a b) :
    ∀ {l : List Txn}, l.Pairwise R → l.Pairwise S → l.Pairwise T := by
  intro l h1 h2
  induction h1 with
  | nil => exact List.Pairwise.nil
  | cons hr _ ih =>
    cases h2 with
    | cons hs ht => exact List.Pairwise.cons (fun b hb => hRS _ _ (hr b hb) (hs b hb)) (ih ht)

theorem perm_pairwise_lt_eq : ∀ (l1 l2 : List Txn), l1.Perm l2 →
    l1.Pairwise (fun x y => tsKey x < tsKey y) →
    l2.Pairwise (fun x y => tsKey x < tsKey y) → l1 = l2 := by
  intro l1
  induction l1 with
  | nil =>
    intro l2 hperm _ _
    exact hperm.nil_eq
  | cons a t1 ih =>
    intro l2 hperm hp1 hp2
    cases l2 with
    | nil => exact absurd hperm.eq_nil (by simp)
    | cons b t2 =>
      by_cases hab : a = b
      · subst hab
        have ht : t1.Perm t2 := hperm.cons_inv
        rw [ih t2 ht hp1.of_cons hp2.of_cons]
      · exfalso
        have ha2 : a ∈ b :: t2 := hperm.mem_iff.mp (by simp)
        have hat2 : a ∈ t2 := by
          rcases List.mem_cons.mp ha2 with h | h
          · exact absurd h hab
          · exact h
        have hb1 : b ∈ a :: t1 := hperm.symm.mem_iff.mp (by simp)
        have hbt1 : b ∈ t1 := by
          rcases List.mem_cons.mp hb1 with h | h
          · exact absurd h.symm hab
          · exact h
        have hlt1 : tsKey a < tsKey b := List.rel_of_pairwise_cons hp1 hbt1
        have hlt2 : tsKey b < tsKey a := List.rel_of_pairwise_cons hp2 hat2
        omega

theorem foldlAddMap (f : Txn → Int) : ∀ (l : List Txn) (s : Int),
    l.foldl (fun acc t => acc + f t) s = s + (l.map f).sum := by
  intro l
  induction l with
  | nil => intro s; simp
  | cons a as ih =>
    intro s
    simp only [List.foldl_cons, List.map_cons, List.sum_cons, ih]
    omega

/-! Claim theorems. -/

/-- Claim C1: direction-asymmetric internal classification. A Debit is
internal exactly when its id is in the detected transfer-pair set, while a
Credit is internal exactly when its id is in the pair set or it matches an
explicit transfer pattern. -/
theorem internal_transfer_direction_asymmetry (t : Txn) (batch : List Txn) :
    (t.Debit_Credit = some "Debit" →
      (isInternalTransfer t batch = true ↔
        idMem (findInternalTransferPairs batch) t.Transaction_ID = true)) ∧
    (t.Debit_Credit = some "Credit" →
      (isInternalTransfer t batch = true ↔
        (idMem (findInternalTransferPairs batch) t.Transaction_ID = true ∨
          hasExplicitTransferPattern t = true))) := by
  constructor
  · intro h
    simp [isInternalTransfer, h]
  · intro h
    simp [isInternalTransfer, h]

/-- Witness for C1: a non-paired Credit with merchant "Credit Card Payment"
is classified internal. -/
theorem internal_transfer_direction_asymmetry_w :
    isInternalTransfer txC1 [txC1] = true :=
  ((internal_transfer_direction_asymmetry txC1 [txC1]).2 rfl).mpr (Or.inr (by decide))

/-- Claim C2: the matcher window is inclusive at exactly ten minutes and
exclusive beyond it. For a two-transaction batch passing the pairing
heuristic, a gap of exactly 600000 ms pairs both transactions, and a gap of
600001 ms or more pairs nothing. -/
theorem matcher_window_boundary (t1 t2 : Txn) (ts1 ts2 : Int)
    (h1 : t1.Timestamp = some ts1) (h2 : t2.Timestamp = some ts2)
    (hp : isPotentialTransferPair t1 t2 = true) :
    (ts2 - ts1 = 600000 →
      idMem (findInternalTransferPairs [t1, t2]) t1.Transaction_ID = true ∧
      idMem (findInternalTransferPairs [t1, t2]) t2.Transaction_ID = true) ∧
    (ts2 - ts1 ≥ 600001 → findInternalTransferPairs [t1, t2] = []) := by
  constructor
  · intro hgap
    have hle : ts1 ≤ ts2 := by omega
    have hsort : sortTs [t1, t2] = [t1, t2] := by
      simp [sortTs, List.insertionSort, List.orderedInsert, tsLeB, h1, h2, hle]
    have hbw : beyondWindow t1 t2 = false := by
      simp [beyondWindow, h1, h2]
      omega
    have hscan : scanForPair t1 [] [t2] = some t2 := by
      simp [scanForPair, hbw, idMem, hp]
    have hstep : findInternalTransferPairs [t1, t2] =
        [t1.Transaction_ID, t2.Transaction_ID] := by
      simp [findInternalTransferPairs, hsort, pairLoop, idMem, hscan]
    rw [hstep]
    constructor <;> simp [idMem]
  · intro hgap
    have hle : ts1 ≤ ts2 := by omega
    have hsort : sortTs [t1, t2] = [t1, t2] := by
      simp [sortTs, List.insertionSort, List.orderedInsert, tsLeB, h1, h2, hle]
    have hbw : beyondWindow t1 t2 = true := by
      simp [beyondWindow, h1, h2]
      omega
    simp [findInternalTransferPairs, hsort, pairLoop, scanForPair, hbw, idMem]

/-- Witness for C2: two own-bank transactions exactly ten minutes apart are
both marked as transfer-paired. -/
theorem matcher_window_boundary_w :
    idMem (findInternalTransferPairs [txC2a, txC2b]) txC2a.Transaction_ID = true ∧
    idMem (findInternalTransferPairs [txC2a, txC2b]) txC2b.Transaction_ID = true :=
  (matcher_window_boundary txC2a txC2b 0 600000 rfl rfl (by decide)).1 (by decide)

/-- Counterexample to C3 as stated: a transaction whose method equals
"credit card" but whose merchant is exactly "debit" (and whose raw message
has no transfer phrase) is rejected, so the function is not the plain
disjunction the claim describes. -/
theorem explicit_pattern_claim_cx :
    lowerOpt txC3x.Transaction_Method = "credit card" ∧
    lowerTrimOpt txC3x.Recipient_Merchant = "debit" ∧
    hasExplicitTransferPattern txC3x = false := by
  refine ⟨by decide, by decide, by decide⟩

/-- Claim C3 (amended): when the lowercased trimmed merchant equals "debit",
`hasExplicitTransferPattern` returns true exactly when the raw message
contains one of the four explicit transfer phrases, ignoring every other
signal; otherwise it is the disjunction of the method test, the raw-message
credit-card indicators, the merchant transfer patterns and the transfer
categories. -/
theorem explicit_pattern_branch_structure (t : Txn) :
    (lowerTrimOpt t.Recipient_Merchant = "debit" →
      (hasExplicitTransferPattern t = true ↔
        internalTransferWords.any (fun w => strIncludes (lowerOpt t.Raw_Message) w) = true)) ∧
    (lowerTrimOpt t.Recipient_Merchant ≠ "debit" →
      (hasExplicitTransferPattern t = true ↔
        (lowerOpt t.Transaction_Method = "credit card" ∨
         creditCardIndicators.any (fun w => strIncludes (lowerOpt t.Raw_Message) w) = true ∨
         transferPatterns.any (fun p => strIncludes (lowerTrimOpt t.Recipient_Merchant) p) = true ∨
         transferCategories.any (fun c => strIncludes (lowerOpt t.Category) c) = true))) := by
  constructor
  · intro h
    simp [hasExplicitTransferPattern, h]
  · intro h
    have hm : (lowerTrimOpt t.Recipient_Merchant == "debit") = false :=
      beq_eq_false_iff_ne.mpr h
    by_cases hmet : lowerOpt t.Transaction_Method = "credit card"
    · simp [hasExplicitTransferPattern, hm, hmet]
    · have hmet2 : (lowerOpt t.Transaction_Method == "credit card") = false :=
        beq_eq_false_iff_ne.mpr hmet
      cases hcc : creditCardIndicators.any (fun w => strIncludes (lowerOpt t.Raw_Message) w) <;>
        cases hpat : transferPatterns.any (fun p => strIncludes (lowerTrimOpt t.Recipient_Merchant) p) <;>
          cases hcat : transferCategories.any (fun c => strIncludes (lowerOpt t.Category) c) <;>
            simp [hasExplicitTransferPattern, hm, hmet, hmet2, hcc, hpat, hcat]

/-- Witness for C3 (amended): a merchant-"debit" transaction whose raw
message says "transfer to" is accepted through the phrase branch. -/
theorem explicit_pattern_branch_structure_w :
    hasExplicitTransferPattern txC3w = true :=
  ((explicit_pattern_branch_structure txC3w).1 (by decide)).mpr (by decide)

/-- Claim C4: the classifier is total over the five type strings and
follows first-match rule order: internal, then bill-payment, then income
for Credit, then spending for Debit, else unknown. -/
theorem classifier_totality_and_rule_order (t : Txn) (batch : List Txn) :
    getTransactionType t batch ∈
      ["internal", "bill-payment", "income", "spending", "unknown"] ∧
    (isInternalTransfer t batch = true → getTransactionType t batch = "internal") ∧
    (isInternalTransfer t batch = false → isBillPayment t = true →
      getTransactionType t batch = "bill-payment") ∧
    (isInternalTransfer t batch = false → isBillPayment t = false →
      t.Debit_Credit = some "Credit" → getTransactionType t batch = "income") ∧
    (isInternalTransfer t batch = false → isBillPayment t = false →
      t.Debit_Credit = some "Debit" → getTransactionType t batch = "spending") ∧
    (isInternalTransfer t batch = false → isBillPayment t = false →
      t.Debit_Credit ≠ some "Credit" → t.Debit_Credit ≠ some "Debit" →
      getTransactionType t batch = "unknown") := by
  refine ⟨?_, ?_, ?_, ?_, ?_, ?_⟩
  · unfold getTransactionType
    split_ifs <;> simp
  · intro h
    simp [getTransactionType, h]
  · intro h1 h2
    simp [getTransactionType, h1, h2]
  · intro h1 h2 h3
    simp [getTransactionType, h1, h2, h3]
  · intro h1 h2 h3
    simp [getTransactionType, h1, h2, h3]
  · intro h1 h2 h3 h4
    have hc : (t.Debit_Credit == some "Credit") = false := beq_eq_false_iff_ne.mpr h3
    have hd : (t.Debit_Credit == some "Debit") = false := beq_eq_false_iff_ne.mpr h4
    simp [getTransactionType, h1, h2, hc, hd]

/-- Witness for C4: a plain debit with no signals classifies as spending. -/
theorem classifier_totality_and_rule_order_w :
    getTransactionType txC4 [txC4] = "spending" :=
  (classifier_totality_and_rule_order txC4 [txC4]).2.2.2.2.1
    (by decide) (by decide) (by decide)

/-- Claim C5: override precedence and idempotence. With no override source
(the API tag object absent and the local map empty for the id) the final
tags equal the automatic tags; a present type override, from either source,
determines the final type regardless of the automatic classification. -/
theorem override_resolution (lt : List (String × Ctags)) (t : Txn) (batch : List Txn) :
    (t.CustomTags = none → getCustomTags lt t.Transaction_ID = {} →
      getFinalTags lt t batch = getTransactionTags t batch) ∧
    (∀ c ty, t.CustomTags = some c → c.type = some ty →
      (getFinalTags lt t batch).type = ty) ∧
    (∀ c ty, t.CustomTags = none → getCustomTags lt t.Transaction_ID = c →
      c.type = some ty → (getFinalTags lt t batch).type = ty) := by
  refine ⟨?_, ?_, ?_⟩
  · intro h1 h2
    simp [getFinalTags, h1, h2, getTransactionTags]
  · intro c ty h1 h2
    simp [getFinalTags, h1, h2]
  · intro c ty h1 h2 h3
    simp [getFinalTags, h1, h2, h3]

/-- Witness for C5: a manual "income" override on a debit wins over the
automatic classification. -/
theorem override_resolution_w :
    (getFinalTags [] txC5 [txC5]).type = "income" :=
  (override_resolution [] txC5 [txC5]).2.1
    { type := some "income" } "income" rfl rfl

/-- Claim C6: aggregation consistency. Net flow is income minus spending
(equivalently, spending minus income is its negation) and the count is the
length of the actual transaction list, for any input including a malformed
one. -/
theorem aggregation_consistency (lt : List (String × Ctags)) (txns : Option (List Txn)) :
    getActualNetFlow lt txns = getActualIncome lt txns - getActualSpending lt txns ∧
    getActualSpending lt txns - getActualIncome lt txns = -(getActualNetFlow lt txns) ∧
    getActualTransactionCount lt txns = (getActualTransactions lt txns).length := by
  cases txns with
  | none => refine ⟨rfl, rfl, rfl⟩
  | some l =>
    refine ⟨rfl, ?_, rfl⟩
    show getActualSpending lt (some l) - getActualIncome lt (some l) =
      -(getActualIncome lt (some l) - getActualSpending lt (some l))
    omega

/-- Counterexample to C7 as stated: a transaction with an unparseable
timestamp is still paired (its id appears in the returned set), because the
window comparison against a NaN date is false and never stops the scan. -/
theorem unparseable_timestamp_claim_cx :
    txC7n.Timestamp = none ∧
    txC7n.Transaction_ID = some "N7" ∧
    idMem (findInternalTransferPairs [txC7n, txC7v]) (some "N7") = true := by
  refine ⟨rfl, rfl, by decide⟩

/-- Claim C7 (amended): a transaction with an unparseable timestamp is NOT
excluded from pairing. In a two-transaction batch the window test is
skipped for it, so whenever the pairing heuristic accepts the two
transactions both ids enter the returned set, regardless of the other
timestamp. -/
theorem invalid_timestamp_can_still_pair (t u : Txn) (ht : t.Timestamp = none)
    (hp : isPotentialTransferPair t u = true) :
    idMem (findInternalTransferPairs [t, u]) t.Transaction_ID = true ∧
    idMem (findInternalTransferPairs [t, u]) u.Transaction_ID = true := by
  have hsort : sortTs [t, u] = [t, u] := by
    simp [sortTs, List.insertionSort, List.orderedInsert, tsLeB, ht]
  have hbw : beyondWindow t u = false := by
    cases hu : u.Timestamp <;> simp [beyondWindow, ht, hu]
  have hscan : scanForPair t [] [u] = some u := by
    simp [scanForPair, hbw, idMem, hp]
  have hstep : findInternalTransferPairs [t, u] =
      [t.Transaction_ID, u.Transaction_ID] := by
    simp [findInternalTransferPairs, hsort, pairLoop, idMem, hscan]
  rw [hstep]
  constructor <;> simp [idMem]

/-- Witness for C7 (amended): the invalid-timestamp debit and the valid
credit are both marked as paired. -/
theorem invalid_timestamp_can_still_pair_w :
    idMem (findInternalTransferPairs [txC7n, txC7v]) txC7n.Transaction_ID = true ∧
    idMem (findInternalTransferPairs [txC7n, txC7v]) txC7v.Transaction_ID = true :=
  invalid_timestamp_can_still_pair txC7n txC7v rfl (by decide)

/-- Claim C8 (amended): a malformed input collection is handled by
returning the neutral results (the empty list and zero), not by surfacing
an invalid-argument error to the caller. -/
theorem malformed_collection_neutral_results (lt : List (String × Ctags)) :
    getActualTransactions lt none = [] ∧
    getActualSpending lt none = 0 ∧
    getActualIncome lt none = 0 ∧
    getActualNetFlow lt none = 0 ∧
    getActualTransactionCount lt none = 0 :=
  ⟨rfl, rfl, rfl, rfl, rfl⟩

/-- Counterexample to C8 as stated: at a concrete malformed input every
core operation returns a normal neutral value instead of an error. -/
theorem malformed_collection_claim_cx :
    getActualTransactions [] none = [] ∧
    getActualSpending [] none = 0 ∧
    getActualIncome [] none = 0 ∧
    getActualNetFlow [] none = 0 ∧
    getActualTransactionCount [] none = 0 :=
  ⟨rfl, rfl, rfl, rfl, rfl⟩

/-- Counterexample to C9 as stated: two permutations of the same three
transactions with tied timestamps yield different pair sets, because the
greedy first-match scan follows the stable sort order. -/
theorem matcher_order_dependence_cx :
    [txC9A, txC9B, txC9C].Perm [txC9A, txC9C, txC9B] ∧
    idMem (findInternalTransferPairs [txC9A, txC9B, txC9C]) (some "B9") = true ∧
    idMem (findInternalTransferPairs [txC9A, txC9C, txC9B]) (some "B9") = false := by
  refine ⟨by decide, by decide, by decide⟩

/-- Claim C9 (amended): the matcher is a deterministic function of the
input list, and its output is permutation-invariant whenever all
timestamps parse and are pairwise distinct; with tied timestamps the input
order can change the result. -/
theorem matcher_determinism_distinct_timestamps (l1 l2 : List Txn)
    (hperm : l1.Perm l2)
    (hv : ∀ t ∈ l1, t.Timestamp.isSome = true)
    (hd : l1.Pairwise (fun a b => tsKey a ≠ tsKey b)) :
    findInternalTransferPairs l1 = findInternalTransferPairs l2 := by
  have hv2 : ∀ t ∈ l2, t.Timestamp.isSome = true :=
    fun t htm => hv t (hperm.mem_iff.mpr htm)
  have hsp1 : (sortTs l1).Perm l1 := List.perm_insertionSort _ l1
  have hsp2 : (sortTs l2).Perm l2 := List.perm_insertionSort _ l2
  have hdsym : ∀ {x y : Txn}, tsKey x ≠ tsKey y → tsKey y ≠ tsKey x :=
    fun h => h.symm
  have hd1 : (sortTs l1).Pairwise (fun a b => tsKey a ≠ tsKey b) :=
    (hsp1.pairwise_iff hdsym).mpr hd
  have hdl2 : l2.Pairwise (fun a b => tsKey a ≠ tsKey b) :=
    (hperm.pairwise_iff hdsym).mp hd
  have hd2 : (sortTs l2).Pairwise (fun a b => tsKey a ≠ tsKey b) :=
    (hsp2.pairwise_iff hdsym).mpr hdl2
  have hle1 := pairwise_le_sortTs l1 hv
  have hle2 := pairwise_le_sortTs l2 hv2
  have hlt1 : (sortTs l1).Pairwise (fun x y => tsKey x < tsKey y) :=
    pairwiseCombine (fun _ _ hle hne => lt_of_le_of_ne hle hne) hle1 hd1
  have hlt2 : (sortTs l2).Pairwise (fun x y => tsKey x < tsKey y) :=
    pairwiseCombine (fun _ _ hle hne => lt_of_le_of_ne hle hne) hle2 hd2
  have hperm12 : (sortTs l1).Perm (sortTs l2) := hsp1.trans (hperm.trans hsp2.symm)
  have heq := perm_pairwise_lt_eq _ _ hperm12 hlt1 hlt2
  simp [findInternalTransferPairs, heq]

/-- Witness for C9 (amended): swapping two transactions with distinct
timestamps leaves the pair set unchanged. -/
theorem matcher_determinism_distinct_timestamps_w :
    findInternalTransferPairs [txC9p, txC9q] = findInternalTransferPairs [txC9q, txC9p] :=
  matcher_determinism_distinct_timestamps [txC9p, txC9q] [txC9q, txC9p]
    (by decide) (by decide) (by decide)

/-- Claim C10: transactions without a numeric amount are skipped by the
monetary sums but still counted. Spending and income are the sums of
amounts over the actual transactions of the right direction that carry a
numeric amount, the contributing transactions never outnumber the count,
and a concrete batch shows the count strictly exceeding them. -/
theorem skipped_amounts_still_counted :
    (∀ (lt : List (String × Ctags)) (l : List Txn),
      getActualSpending lt (some l) =
        (((getActualTransactions lt (some l)).filter
          (fun t => t.Debit_Credit == some "Debit" && t.Amount.isSome)).map
            (fun t => t.Amount.getD 0)).sum) ∧
    (∀ (lt : List (String × Ctags)) (l : List Txn),
      getActualIncome lt (some l) =
        (((getActualTransactions lt (some l)).filter
          (fun t => t.Debit_Credit == some "Credit" && t.Amount.isSome)).map
            (fun t => t.Amount.getD 0)).sum) ∧
    (∀ (lt : List (String × Ctags)) (l : List Txn),
      ((getActualTransactions lt (some l)).filter contributesToTotals).length ≤
        getActualTransactionCount lt (some l)) ∧
    getActualTransactionCount [] (some [txC10]) = 1 ∧
    ((getActualTransactions [] (some [txC10])).filter contributesToTotals).length = 0 := by
  refine ⟨?_, ?_, ?_, by decide, by decide⟩
  · intro lt l
    simp only [getActualSpending, foldlAddMap]
    omega
  · intro lt l
    simp only [getActualIncome, foldlAddMap]
    omega
  · intro lt l
    simp only [getActualTransactionCount]
    exact List.length_filter_le _ _

end MyFinances
